import Mathlib

/-!
Shallow embedding of the campaign CRUD service in `src/main.py`.

The Python program is a FastAPI application over a global in-memory list
`data : List[dict]`.  We model:

* a stored record (`Campaign`) — a dict with keys `campaign_id`, `name`,
  `due_date`, `created_at`; `name` and `due_date` can in principle hold
  `None` (the store is a duck-typed dict), hence `Option String`;
* pydantic request models `CampaignCreate` / `CampaignUpdate`, including
  the `Field(min_length=1, max_length=200)` constraints (checked on the
  raw, untrimmed string, since an `after`-mode `field_validator` runs
  after the core constraints) and the stripping validator;
* the endpoint handlers `create_campaign`, `read_campaign`,
  `update_campaign`, `delete_campaign`, together with the request
  pipeline: FastAPI validates the path parameter (`gt=0`) and the body
  model before the handler body runs;
* `generate_unique_campaign_id`, with randomness supplied as an explicit
  stream `rands : Nat → Nat` standing for the successive values of
  `random.randint(1, 10000)`.

Errors are the status classes the endpoints can produce:
`validation` (422/400 request-shape failures), `notFound` (404),
`emptyUpdate` (400 "No fields provided for update"), `idExhaustion`
(500 from `generate_unique_campaign_id`).

Each endpoint returns its response together with the store after the
call; on an error the store is returned unchanged.
-/

namespace Omnicopy

/-- Python's `str.strip()`: remove leading and trailing whitespace
characters.  (Python also strips some further Unicode whitespace;
for the ASCII whitespace relevant here the two agree.) -/
def pyStrip (s : String) : String :=
  ⟨((s.data.dropWhile Char.isWhitespace).reverse.dropWhile Char.isWhitespace).reverse⟩

/-- A stored campaign record (the dict appended to `data` in `main.py`). -/
structure Campaign where
  campaign_id : Nat
  name : Option String
  due_date : Option String
  created_at : String
  deriving Repr, DecidableEq

/-- The global in-memory store `data` (a Python list of dicts). -/
abbrev Store := List Campaign

/-- Status classes of the endpoint responses. -/
inductive ApiError where
  | validation
  | notFound
  | emptyUpdate
  | idExhaustion
  deriving Repr, DecidableEq

/-- Validation of a `name` string as pydantic performs it for
`Field(..., min_length=1, max_length=200)` followed by the
`validate_name` field validator (which strips and rejects
empty/whitespace-only values).  Constraints see the raw string;
the returned value is the stripped string. -/
def validate_name (v : String) : Option String :=
  if v.length < 1 then none
  else if 200 < v.length then none
  else if pyStrip v = "" then none
  else some (pyStrip v)

/-- The validated `CampaignCreate` pydantic model. -/
structure CampaignCreate where
  name : String
  due_date : Option String
  deriving Repr, DecidableEq

/-- A raw creation request body: `name` may be absent (it is a required
field, so absence fails validation), `due_date` is optional. -/
structure RawCreateRequest where
  name : Option String
  due_date : Option String
  deriving Repr, DecidableEq

/-- Pydantic validation of a creation body into `CampaignCreate`. -/
def parseCreate (r : RawCreateRequest) : Option CampaignCreate :=
  match r.name with
  | none => none
  | some s => (validate_name s).map (fun n => { name := n, due_date := r.due_date })

/-- The validated `CampaignUpdate` pydantic model, keeping track of
which fields were explicitly set (`model_dump(exclude_unset=True)`):
`none` = field unset, `some none` = explicitly `null`,
`some (some v)` = explicitly a value. -/
structure CampaignUpdate where
  name : Option (Option String)
  due_date : Option (Option String)
  deriving Repr, DecidableEq

/-- A raw update request body.  `campaign_id` and `created_at` model
extra keys a client may put in the JSON body; pydantic ignores them
(and the handler additionally pops them from the dump). -/
structure RawUpdateRequest where
  name : Option (Option String)
  due_date : Option (Option String)
  campaign_id : Option Nat
  created_at : Option String
  deriving Repr, DecidableEq

/-- Pydantic validation of an update body into `CampaignUpdate`.
A supplied non-null `name` goes through the same length constraints and
stripping validator as at creation; `null` is accepted unchanged;
`due_date` has no constraints.  Extra keys are dropped. -/
def parseUpdate (r : RawUpdateRequest) : Option CampaignUpdate :=
  match r.name with
  | none => some { name := none, due_date := r.due_date }
  | some none => some { name := some none, due_date := r.due_date }
  | some (some s) =>
      (validate_name s).map (fun n => { name := some (some n), due_date := r.due_date })

/-- The retry loop of `generate_unique_campaign_id`: attempt `i` draws
`rands i`; a drawn id already present in `data` is rejected and the next
attempt made, until the fuel (`max_attempts`) runs out. -/
def genIdAttempts (data : Store) (rands : Nat → Nat) : Nat → Nat → Option Nat
  | _, 0 => none
  | i, fuel + 1 =>
      let cid := rands i
      if data.any (fun item => item.campaign_id == cid) then
        genIdAttempts data rands (i + 1) fuel
      else
        some cid

/-- The function `generate_unique_campaign_id`: up to 1000 draws from
`random.randint(1, 10000)` (the stream `rands`); `none` models the
`HTTPException(500, "Unable to generate unique campaign ID")`. -/
def generate_unique_campaign_id (data : Store) (rands : Nat → Nat) : Option Nat :=
  genIdAttempts data rands 0 1000

/-- Endpoint `POST /campaigns` (`create_campaign`): body validation, id
generation, then append of the new record.  `now` is
`datetime.now().isoformat()`.  The Python `due_date if due_date else
None` maps an empty string to `None` (falsy). -/
def create_campaign (data : Store) (rands : Nat → Nat) (now : String)
    (r : RawCreateRequest) : Except ApiError Campaign × Store :=
  match parseCreate r with
  | none => (.error .validation, data)
  | some campaign =>
      match generate_unique_campaign_id data rands with
      | none => (.error .idExhaustion, data)
      | some cid =>
          let due_date := match campaign.due_date with
            | some s => if s = "" then none else some s
            | none => none
          let new_campaign : Campaign :=
            { campaign_id := cid, name := some campaign.name,
              due_date := due_date, created_at := now }
          (.ok new_campaign, data ++ [new_campaign])

/-- Endpoint `GET /campaigns/{campaign_id}` (`read_campaign`): the path parameter
must be a positive integer (`Path(..., gt=0)`, a 422 otherwise), then
the first record with that id is returned, or 404. -/
def read_campaign (data : Store) (campaign_id : Nat) : Except ApiError Campaign :=
  if campaign_id = 0 then .error .validation
  else
    match data.find? (fun item => item.campaign_id == campaign_id) with
    | none => .error .notFound
    | some c => .ok c

/-- The merge `campaign.update(update_data)`: merge exactly the explicitly set
fields of the update into the record. -/
def applyUpdate (c : Campaign) (u : CampaignUpdate) : Campaign :=
  { c with
    name := match u.name with | none => c.name | some v => v,
    due_date := match u.due_date with | none => c.due_date | some v => v }

/-- In-place mutation of the store: the first record with the given id
is replaced by its updated version. -/
def storeUpdate (cid : Nat) (u : CampaignUpdate) : Store → Store
  | [] => []
  | c :: rest =>
      if c.campaign_id == cid then applyUpdate c u :: rest
      else c :: storeUpdate cid u rest

/-- Endpoint `PUT /campaigns/{campaign_id}` (`update_campaign`).  Pipeline order
mirrors FastAPI: path validation, then body-model validation, and only
then the handler body (404 lookup, `exclude_unset` dump with
`campaign_id`/`created_at` popped, empty-dump 400, merge). -/
def update_campaign (data : Store) (campaign_id : Nat) (raw : RawUpdateRequest) :
    Except ApiError Campaign × Store :=
  if campaign_id = 0 then (.error .validation, data)
  else
    match parseUpdate raw with
    | none => (.error .validation, data)
    | some u =>
        match data.find? (fun item => item.campaign_id == campaign_id) with
        | none => (.error .notFound, data)
        | some c =>
            if u.name = none ∧ u.due_date = none then (.error .emptyUpdate, data)
            else (.ok (applyUpdate c u), storeUpdate campaign_id u data)

/-- The removal `data.remove(campaign)` where `campaign` is the first record with
the given id: removal of the first matching record. -/
def removeFirstById (cid : Nat) : Store → Store
  | [] => []
  | c :: rest => if c.campaign_id == cid then rest else c :: removeFirstById cid rest

/-- Endpoint `DELETE /campaigns/{campaign_id}` (`delete_campaign`): path
validation, 404 lookup, then removal.  `.ok ()` is the 204 response
("a record was actually removed"), `.error .notFound` the 404. -/
def delete_campaign (data : Store) (campaign_id : Nat) : Except ApiError Unit × Store :=
  if campaign_id = 0 then (.error .validation, data)
  else
    match data.find? (fun item => item.campaign_id == campaign_id) with
    | none => (.error .notFound, data)
    | some _ => (.ok (), removeFirstById campaign_id data)

/-! ### Helper lemmas -/

theorem genIdAttempts_eq_none_iff (data : Store) (rands : Nat → Nat) :
    ∀ fuel i, genIdAttempts data rands i fuel = none ↔
      ∀ j < fuel, (data.any fun item => item.campaign_id == rands (i + j)) = true := by
  intro fuel
  induction fuel with
  | zero =>
      intro i
      simp [genIdAttempts]
  | succ n ih =>
      intro i
      simp only [genIdAttempts]
      by_cases h : (data.any fun item => item.campaign_id == rands i) = true
      · rw [if_pos h, ih (i + 1)]
        constructor
        · intro hall j hj
          cases j with
          | zero => simpa using h
          | succ k =>
              have hk := hall k (by omega)
              have : i + 1 + k = i + (k + 1) := by omega
              rwa [this] at hk
        · intro hall j hj
          have hk := hall (j + 1) (by omega)
          have : i + (j + 1) = i + 1 + j := by omega
          rwa [this] at hk
      · rw [if_neg h]
        constructor
        · intro hc; exact absurd hc (by simp)
        · intro hall
          exact absurd (by simpa using hall 0 (by omega)) h

theorem genIdAttempts_some (data : Store) (rands : Nat → Nat) :
    ∀ fuel i cid, genIdAttempts data rands i fuel = some cid →
      (data.any fun item => item.campaign_id == cid) = false ∧ ∃ j, cid = rands (i + j) := by
  intro fuel
  induction fuel with
  | zero =>
      intro i cid h
      simp [genIdAttempts] at h
  | succ n ih =>
      intro i cid h
      simp only [genIdAttempts] at h
      by_cases hc : (data.any fun item => item.campaign_id == rands i) = true
      · rw [if_pos hc] at h
        obtain ⟨h1, j, h2⟩ := ih (i + 1) cid h
        refine ⟨h1, j + 1, ?_⟩
        have : i + 1 + j = i + (j + 1) := by omega
        rwa [this] at h2
      · rw [if_neg hc] at h
        injection h with h
        subst h
        exact ⟨by simpa using hc, 0, by simp⟩

theorem find?_append_of_none {p : Campaign → Bool} {l₁ : Store} (l₂ : Store)
    (h : l₁.find? p = none) : (l₁ ++ l₂).find? p = l₂.find? p := by
  induction l₁ with
  | nil => simp
  | cons c rest ih =>
      by_cases hc : p c
      · rw [List.find?_cons_of_pos _ hc] at h
        exact absurd h (by simp)
      · rw [List.find?_cons_of_neg _ hc] at h
        rw [List.cons_append, List.find?_cons_of_neg _ hc]
        exact ih h

theorem applyUpdate_campaign_id (c : Campaign) (u : CampaignUpdate) :
    (applyUpdate c u).campaign_id = c.campaign_id := rfl

theorem storeUpdate_find? (cid : Nat) (u : CampaignUpdate) :
    ∀ data : Store,
      (storeUpdate cid u data).find? (fun item => item.campaign_id == cid) =
        (data.find? (fun item => item.campaign_id == cid)).map (fun c => applyUpdate c u) := by
  intro data
  induction data with
  | nil => simp [storeUpdate]
  | cons c rest ih =>
      by_cases h : (c.campaign_id == cid) = true
      · rw [storeUpdate, if_pos h]
        rw [List.find?_cons_of_pos (p := fun (item : Campaign) => item.campaign_id == cid) _
            (by simpa [applyUpdate_campaign_id] using h),
          List.find?_cons_of_pos (p := fun (item : Campaign) => item.campaign_id == cid) _ h]
        rfl
      · rw [storeUpdate, if_neg h]
        rw [List.find?_cons_of_neg (p := fun (item : Campaign) => item.campaign_id == cid) _ h,
          List.find?_cons_of_neg (p := fun (item : Campaign) => item.campaign_id == cid) _ h]
        exact ih

theorem removeFirstById_find?_none (cid : Nat) :
    ∀ data : Store, (data.map Campaign.campaign_id).Nodup →
      (removeFirstById cid data).find? (fun item => item.campaign_id == cid) = none := by
  intro data
  induction data with
  | nil =>
      intro _
      simp [removeFirstById]
  | cons c rest ih =>
      intro hnd
      rw [List.map_cons, List.nodup_cons] at hnd
      by_cases h : (c.campaign_id == cid) = true
      · rw [removeFirstById, if_pos h]
        have hcid : c.campaign_id = cid := by simpa using h
        rw [List.find?_eq_none]
        intro x hx
        simp only [beq_iff_eq]
        intro hxcid
        exact hnd.1 (by rw [hcid, ← hxcid]; exact List.mem_map_of_mem _ hx)
      · rw [removeFirstById, if_neg h]
        rw [List.find?_cons_of_neg (p := fun (item : Campaign) => item.campaign_id == cid) _ h]
        exact ih hnd.2

theorem any_eq_false_iff (data : Store) (cid : Nat) :
    (data.any fun item => item.campaign_id == cid) = false ↔
      ∀ x ∈ data, x.campaign_id ≠ cid := by
  simp [List.any_eq_false]

/-! ### Claim theorems -/

/-- C1: every successful create returns a record whose id differs from
the id of every record live at the time of the insert, and id uniqueness
across live records is preserved. -/
theorem create_fresh_id_preserves_unique_ids (data : Store) (rands : Nat → Nat)
    (now : String) (r : RawCreateRequest) (c : Campaign) (data' : Store)
    (h : create_campaign data rands now r = (.ok c, data'))
    (hnd : (data.map Campaign.campaign_id).Nodup) :
    (∀ x ∈ data, x.campaign_id ≠ c.campaign_id) ∧
      (data'.map Campaign.campaign_id).Nodup := by
  unfold create_campaign at h
  cases hp : parseCreate r with
  | none =>
      rw [hp] at h
      exact absurd h (by simp)
  | some cc =>
      rw [hp] at h
      cases hg : generate_unique_campaign_id data rands with
      | none =>
          rw [hg] at h
          exact absurd h (by simp)
      | some cid =>
          rw [hg] at h
          simp only [Prod.mk.injEq, Except.ok.injEq] at h
          obtain ⟨hc, hd⟩ := h
          have hfresh : ∀ x ∈ data, x.campaign_id ≠ cid := by
            rw [← any_eq_false_iff]
            exact (genIdAttempts_some data rands 1000 0 cid hg).1
          have hcid : c.campaign_id = cid := by rw [← hc]
          constructor
          · intro x hx
            rw [hcid]
            exact hfresh x hx
          · rw [← hd, List.map_append, List.nodup_append]
            refine ⟨hnd, by simp, ?_⟩
            intro a ha hb
            simp only [List.map_cons, List.map_nil, List.mem_singleton] at hb
            obtain ⟨x, hx, rfl⟩ := List.mem_map.mp ha
            exact hfresh x hx hb

/-- Witness for C1 at a concrete input. -/
theorem create_fresh_id_preserves_unique_ids_witness :
    (∀ x ∈ ([] : Store), x.campaign_id ≠
        (Campaign.mk 7 (some "A") none "t").campaign_id) ∧
      (([Campaign.mk 7 (some "A") none "t"] : Store).map Campaign.campaign_id).Nodup :=
  create_fresh_id_preserves_unique_ids [] (fun _ => 7) "t"
    { name := some "A", due_date := none } (Campaign.mk 7 (some "A") none "t")
    [Campaign.mk 7 (some "A") none "t"] rfl (by simp)

/-- C5: creating with an absent, empty, or whitespace-only name is a
validation error, for every due_date, and the store is unchanged. -/
theorem create_blank_name_validation_error (data : Store) (rands : Nat → Nat)
    (now : String) (r : RawCreateRequest)
    (h : r.name = none ∨ ∃ s, r.name = some s ∧ pyStrip s = "") :
    create_campaign data rands now r = (.error .validation, data) := by
  have hp : parseCreate r = none := by
    rcases h with h | ⟨s, hs, hstrip⟩
    · simp [parseCreate, h]
    · simp only [parseCreate, hs, validate_name, hstrip]
      split
      · rfl
      · split
        · rfl
        · simp
  simp [create_campaign, hp]

/-- Witness for C5 at a concrete input. -/
theorem create_blank_name_validation_error_witness :
    create_campaign [] (fun _ => 7) "t"
        { name := some "   ", due_date := some "2025-01-01" } =
      (.error .validation, []) :=
  create_blank_name_validation_error [] (fun _ => 7) "t"
    { name := some "   ", due_date := some "2025-01-01" }
    (Or.inr ⟨"   ", rfl, rfl⟩)

/-- C7: id generation fails exactly when all 1000 attempts hit a live
id; a successful draw is a fresh id in 1..10000; the failure surfaces
from `create_campaign` as `idExhaustion`, a server-class error distinct
from a validation error. -/
theorem insert_id_exhaustion_iff (data : Store) (rands : Nat → Nat)
    (hr : ∀ i, 1 ≤ rands i ∧ rands i ≤ 10000) :
    (generate_unique_campaign_id data rands = none ↔
      ∀ j < 1000, (data.any fun item => item.campaign_id == rands j) = true) ∧
    (∀ cid, generate_unique_campaign_id data rands = some cid →
      (1 ≤ cid ∧ cid ≤ 10000) ∧ ∀ x ∈ data, x.campaign_id ≠ cid) ∧
    (∀ now r, parseCreate r ≠ none →
      generate_unique_campaign_id data rands = none →
      (create_campaign data rands now r).fst = Except.error ApiError.idExhaustion ∧
      ApiError.idExhaustion ≠ ApiError.validation) := by
  refine ⟨?_, ?_, ?_⟩
  · rw [generate_unique_campaign_id, genIdAttempts_eq_none_iff]
    simp
  · intro cid hg
    obtain ⟨hfresh, j, hj⟩ := genIdAttempts_some data rands 1000 0 cid hg
    refine ⟨by rw [hj]; exact hr (0 + j), ?_⟩
    rw [← any_eq_false_iff]
    exact hfresh
  · intro now r hp hg
    refine ⟨?_, by decide⟩
    cases hpc : parseCreate r with
    | none => exact absurd hpc hp
    | some cc => simp [create_campaign, hpc, hg]

/-- Witness for C7 at a concrete input. -/
theorem insert_id_exhaustion_iff_witness :
    (generate_unique_campaign_id [] (fun _ => 5) = none ↔
      ∀ j < 1000, (([] : Store).any fun item => item.campaign_id == 5) = true) ∧
    (∀ cid, generate_unique_campaign_id [] (fun _ => 5) = some cid →
      (1 ≤ cid ∧ cid ≤ 10000) ∧ ∀ x ∈ ([] : Store), x.campaign_id ≠ cid) ∧
    (∀ now r, parseCreate r ≠ none →
      generate_unique_campaign_id [] (fun _ => 5) = none →
      (create_campaign [] (fun _ => 5) now r).fst = Except.error ApiError.idExhaustion ∧
      ApiError.idExhaustion ≠ ApiError.validation) :=
  insert_id_exhaustion_iff [] (fun _ => 5)
    (fun _ => ⟨show (1 : Nat) ≤ 5 by decide, show (5 : Nat) ≤ 10000 by decide⟩)

/-- C9: after a successful create, reading back the returned record's id
yields a record equal in all fields to the creation result. -/
theorem create_read_roundtrip (data : Store) (rands : Nat → Nat) (now : String)
    (r : RawCreateRequest) (c : Campaign) (data' : Store)
    (hr : ∀ i, 1 ≤ rands i)
    (h : create_campaign data rands now r = (.ok c, data')) :
    read_campaign data' c.campaign_id = .ok c := by
  unfold create_campaign at h
  cases hp : parseCreate r with
  | none =>
      rw [hp] at h
      exact absurd h (by simp)
  | some cc =>
      rw [hp] at h
      cases hg : generate_unique_campaign_id data rands with
      | none =>
          rw [hg] at h
          exact absurd h (by simp)
      | some cid =>
          rw [hg] at h
          simp only [Prod.mk.injEq, Except.ok.injEq] at h
          obtain ⟨hc, hd⟩ := h
          obtain ⟨hfresh, j, hj⟩ := genIdAttempts_some data rands 1000 0 cid hg
          have hcid : c.campaign_id = cid := by rw [← hc]
          have hpos : c.campaign_id ≠ 0 := by
            rw [hcid, hj]
            have := hr (0 + j)
            omega
          rw [read_campaign, if_neg hpos, ← hd, hc]
          have hfa : ∀ x ∈ data, x.campaign_id ≠ cid :=
            (any_eq_false_iff data cid).mp hfresh
          have hnone : data.find? (fun item => item.campaign_id == c.campaign_id) = none := by
            rw [List.find?_eq_none]
            intro x hx
            simp only [beq_iff_eq]
            rw [hcid]
            exact hfa x hx
          rw [find?_append_of_none _ hnone]
          simp

/-- Witness for C9 at a concrete input. -/
theorem create_read_roundtrip_witness :
    read_campaign [Campaign.mk 5 (some "A") (some "2025-01-01") "t"]
        (Campaign.mk 5 (some "A") (some "2025-01-01") "t").campaign_id =
      .ok (Campaign.mk 5 (some "A") (some "2025-01-01") "t") :=
  create_read_roundtrip [] (fun _ => 5) "t"
    { name := some "A", due_date := some "2025-01-01" }
    (Campaign.mk 5 (some "A") (some "2025-01-01") "t")
    [Campaign.mk 5 (some "A") (some "2025-01-01") "t"]
    (fun _ => show (1 : Nat) ≤ 5 by decide) rfl

/-- C2 fails as stated: with id 999 absent from the store but an invalid
body (`name` set to the empty string), the update pipeline rejects the
body with a validation error before the handler's 404 lookup runs. -/
theorem update_missing_id_validation_counterexample :
    (([Campaign.mk 1 (some "Campaign 1") none "2025-01-01T00:00:00"] : Store).find?
        (fun item => item.campaign_id == 999) = none) ∧
    (update_campaign [Campaign.mk 1 (some "Campaign 1") none "2025-01-01T00:00:00"] 999
        { name := some (some ""), due_date := none,
          campaign_id := none, created_at := none }).fst =
      Except.error ApiError.validation ∧
    ApiError.validation ≠ ApiError.notFound :=
  ⟨rfl, rfl, by decide⟩

/-- C2 (amended): an update addressed to a positive id that does not
resolve to a live record yields `notFound` whenever the body passes
model validation, and the store is unchanged. -/
theorem update_missing_id_not_found (data : Store) (cid : Nat)
    (raw : RawUpdateRequest) (u : CampaignUpdate)
    (h0 : cid ≠ 0) (hp : parseUpdate raw = some u)
    (hf : data.find? (fun item => item.campaign_id == cid) = none) :
    update_campaign data cid raw = (.error .notFound, data) := by
  simp [update_campaign, h0, hp, hf]

/-- Witness for the amended C2 at a concrete input. -/
theorem update_missing_id_not_found_witness :
    update_campaign [] 5
        { name := none, due_date := some (some "2025-06-01"),
          campaign_id := none, created_at := none } =
      (.error .notFound, []) :=
  update_missing_id_not_found [] 5
    { name := none, due_date := some (some "2025-06-01"),
      campaign_id := none, created_at := none }
    { name := none, due_date := some (some "2025-06-01") }
    (by decide) rfl rfl

/-- C3: updating an existing record with the empty body `{}` yields the
`emptyUpdate` client error, which is distinct from the generic
validation error, and the store is unchanged. -/
theorem update_empty_body_empty_update (data : Store) (cid : Nat) (c : Campaign)
    (h0 : cid ≠ 0)
    (hf : data.find? (fun item => item.campaign_id == cid) = some c) :
    update_campaign data cid
        { name := none, due_date := none, campaign_id := none, created_at := none } =
      (.error .emptyUpdate, data) ∧
    ApiError.emptyUpdate ≠ ApiError.validation := by
  refine ⟨?_, by decide⟩
  simp [update_campaign, h0, parseUpdate, hf]

/-- Witness for C3 at a concrete input. -/
theorem update_empty_body_empty_update_witness :
    update_campaign [Campaign.mk 1 (some "Campaign 1") none "t0"] 1
        { name := none, due_date := none, campaign_id := none, created_at := none } =
      (.error .emptyUpdate, [Campaign.mk 1 (some "Campaign 1") none "t0"]) ∧
    ApiError.emptyUpdate ≠ ApiError.validation :=
  update_empty_body_empty_update [Campaign.mk 1 (some "Campaign 1") none "t0"] 1
    (Campaign.mk 1 (some "Campaign 1") none "t0") (by decide) rfl

/-- C4: a successful update that supplies only a valid `name` stores the
name stripped of surrounding whitespace and leaves `campaign_id`,
`created_at` and `due_date` at their prior values, regardless of any
`campaign_id`/`created_at` keys in the raw request; reading the id back
returns exactly the updated record. -/
theorem update_trims_name_preserves_frame (data : Store) (cid : Nat) (c : Campaign)
    (s : String) (rawId : Option Nat) (rawCA : Option String)
    (h0 : cid ≠ 0)
    (hf : data.find? (fun item => item.campaign_id == cid) = some c)
    (hlen1 : 1 ≤ s.length) (hlen2 : s.length ≤ 200) (hne : pyStrip s ≠ "") :
    ∃ c', update_campaign data cid
        { name := some (some s), due_date := none,
          campaign_id := rawId, created_at := rawCA } =
      (.ok c', storeUpdate cid { name := some (some (pyStrip s)), due_date := none } data) ∧
    c'.name = some (pyStrip s) ∧
    c'.campaign_id = c.campaign_id ∧
    c'.created_at = c.created_at ∧
    c'.due_date = c.due_date ∧
    read_campaign
        (storeUpdate cid { name := some (some (pyStrip s)), due_date := none } data) cid =
      .ok c' := by
  have hv : validate_name s = some (pyStrip s) := by
    rw [validate_name, if_neg (by omega), if_neg (by omega), if_neg hne]
  refine ⟨applyUpdate c { name := some (some (pyStrip s)), due_date := none },
    ?_, rfl, rfl, rfl, rfl, ?_⟩
  · simp [update_campaign, h0, parseUpdate, hv, hf]
  · rw [read_campaign, if_neg h0, storeUpdate_find?, hf]
    rfl

/-- Witness for C4 at a concrete input: the name `"  X  "` is stored as
`"X"`. -/
theorem update_trims_name_preserves_frame_witness :
    pyStrip "  X  " = "X" ∧
    ∃ c', update_campaign [Campaign.mk 1 (some "Old") (some "d") "t0"] 1
        { name := some (some "  X  "), due_date := none,
          campaign_id := some 99, created_at := some "z" } =
      (.ok c', storeUpdate 1 { name := some (some (pyStrip "  X  ")), due_date := none }
        [Campaign.mk 1 (some "Old") (some "d") "t0"]) ∧
    c'.name = some (pyStrip "  X  ") ∧
    c'.campaign_id = (Campaign.mk 1 (some "Old") (some "d") "t0").campaign_id ∧
    c'.created_at = (Campaign.mk 1 (some "Old") (some "d") "t0").created_at ∧
    c'.due_date = (Campaign.mk 1 (some "Old") (some "d") "t0").due_date ∧
    read_campaign
        (storeUpdate 1 { name := some (some (pyStrip "  X  ")), due_date := none }
          [Campaign.mk 1 (some "Old") (some "d") "t0"]) 1 = .ok c' :=
  ⟨rfl,
    update_trims_name_preserves_frame [Campaign.mk 1 (some "Old") (some "d") "t0"] 1
      (Campaign.mk 1 (some "Old") (some "d") "t0") "  X  " (some 99) (some "z")
      (by decide) rfl (by decide) (by decide) (by decide)⟩

set_option maxRecDepth 4000 in
/-- C6 fails as stated: a name of 201 characters whose stripped form is
the single character `X` (length 1 ≤ 200) is nevertheless rejected at
creation, because the 200-character limit is enforced on the raw name
before stripping. -/
theorem name_length_trimmed_counterexample :
    (pyStrip (String.mk ('X' :: List.replicate 200 ' '))).length ≤ 200 ∧
    (create_campaign [] (fun _ => 7) "t"
        { name := some (String.mk ('X' :: List.replicate 200 ' ')), due_date := none }).fst =
      Except.error ApiError.validation :=
  ⟨by decide, rfl⟩

/-- C6 (amended): for a supplied name that is non-empty after stripping,
create and update reject with a validation error exactly when the raw,
unstripped name exceeds 200 characters. -/
theorem name_length_checked_untrimmed (s : String) (hne : pyStrip s ≠ "")
    (data : Store) (rands : Nat → Nat) (now : String) (dd : Option String)
    (cid : Nat) (h0 : cid ≠ 0) (rdd : Option (Option String))
    (rawId : Option Nat) (rawCA : Option String) :
    ((create_campaign data rands now { name := some s, due_date := dd }).fst =
        Except.error ApiError.validation ↔ 200 < s.length) ∧
    ((update_campaign data cid
        { name := some (some s), due_date := rdd,
          campaign_id := rawId, created_at := rawCA }).fst =
        Except.error ApiError.validation ↔ 200 < s.length) := by
  have hlen1 : ¬s.length < 1 := by
    intro hl
    apply hne
    have hs : s = "" := by
      cases s with
      | mk l =>
          have : l.length = 0 := by simpa [String.length] using hl
          simp [List.length_eq_zero] at this
          rw [this]
    rw [hs]
    rfl
  by_cases hlen2 : 200 < s.length
  · have hv : validate_name s = none := by
      rw [validate_name, if_neg hlen1, if_pos hlen2]
    constructor
    · rw [iff_true_intro hlen2, iff_true]
      simp [create_campaign, parseCreate, hv]
    · rw [iff_true_intro hlen2, iff_true]
      simp [update_campaign, h0, parseUpdate, hv]
  · have hv : validate_name s = some (pyStrip s) := by
      rw [validate_name, if_neg hlen1, if_neg hlen2, if_neg hne]
    constructor
    · rw [iff_false_intro hlen2, iff_false]
      cases hg : generate_unique_campaign_id data rands with
      | none => simp [create_campaign, parseCreate, hv, hg]
      | some cid' => simp [create_campaign, parseCreate, hv, hg]
    · rw [iff_false_intro hlen2, iff_false]
      cases hf : data.find? (fun item => item.campaign_id == cid) with
      | none => simp [update_campaign, h0, parseUpdate, hv, hf]
      | some c => simp [update_campaign, h0, parseUpdate, hv, hf]

/-- Witness for the amended C6 at a concrete input. -/
theorem name_length_checked_untrimmed_witness :
    ((create_campaign [] (fun _ => 7) "t"
        { name := some "Hello", due_date := none }).fst =
        Except.error ApiError.validation ↔ 200 < "Hello".length) ∧
    ((update_campaign [] 3
        { name := some (some "Hello"), due_date := none,
          campaign_id := none, created_at := none }).fst =
        Except.error ApiError.validation ↔ 200 < "Hello".length) :=
  name_length_checked_untrimmed "Hello" (by decide) [] (fun _ => 7) "t" none 3
    (by decide) none none none

/-- C8: deleting a live id reports a removal (the 204 branch), a
subsequent read of the id finds nothing, a second delete of the same id
reports not-found and leaves the store as it is; deleting an id with no
matching live record always reports not-found with the store
unchanged. -/
theorem delete_then_absent_second_delete_fails (data : Store) (cid : Nat)
    (c : Campaign) (h0 : cid ≠ 0)
    (hnd : (data.map Campaign.campaign_id).Nodup)
    (hf : data.find? (fun item => item.campaign_id == cid) = some c) :
    (delete_campaign data cid).fst = .ok () ∧
    read_campaign (delete_campaign data cid).snd cid = .error .notFound ∧
    delete_campaign (delete_campaign data cid).snd cid =
      (.error .notFound, (delete_campaign data cid).snd) ∧
    (∀ d k, k ≠ 0 → d.find? (fun item => item.campaign_id == k) = none →
      delete_campaign d k = (.error .notFound, d)) := by
  have hdel : delete_campaign data cid = (.ok (), removeFirstById cid data) := by
    simp [delete_campaign, h0, hf]
  have hgone : (removeFirstById cid data).find? (fun item => item.campaign_id == cid) =
      none := removeFirstById_find?_none cid data hnd
  refine ⟨by rw [hdel], ?_, ?_, ?_⟩
  · rw [hdel]
    simp [read_campaign, h0, hgone]
  · rw [hdel]
    simp [delete_campaign, h0, hgone]
  · intro d k hk hnone
    simp [delete_campaign, hk, hnone]

/-- Witness for C8 at a concrete input. -/
theorem delete_then_absent_second_delete_fails_witness :
    (delete_campaign [Campaign.mk 1 (some "Campaign 1") none "t"] 1).fst = .ok () ∧
    read_campaign (delete_campaign [Campaign.mk 1 (some "Campaign 1") none "t"] 1).snd 1 =
      .error .notFound ∧
    delete_campaign (delete_campaign [Campaign.mk 1 (some "Campaign 1") none "t"] 1).snd 1 =
      (.error .notFound, (delete_campaign [Campaign.mk 1 (some "Campaign 1") none "t"] 1).snd) ∧
    (∀ d k, k ≠ 0 → d.find? (fun item => item.campaign_id == k) = none →
      delete_campaign d k = (.error .notFound, d)) :=
  delete_then_absent_second_delete_fails [Campaign.mk 1 (some "Campaign 1") none "t"] 1
    (Campaign.mk 1 (some "Campaign 1") none "t") (by decide) (by simp) rfl

/-- C10: an update whose body explicitly sets `due_date` to null is not
an empty update: it succeeds, clears the stored `due_date`, and leaves
`name` and `created_at` untouched; reading the id back returns the
updated record. -/
theorem update_due_date_null_counts_as_supplied (data : Store) (cid : Nat) (c : Campaign)
    (rawId : Option Nat) (rawCA : Option String)
    (h0 : cid ≠ 0)
    (hf : data.find? (fun item => item.campaign_id == cid) = some c) :
    (update_campaign data cid
        { name := none, due_date := some none,
          campaign_id := rawId, created_at := rawCA }).fst ≠
      Except.error ApiError.emptyUpdate ∧
    ∃ c', update_campaign data cid
        { name := none, due_date := some none,
          campaign_id := rawId, created_at := rawCA } =
      (.ok c', storeUpdate cid { name := none, due_date := some none } data) ∧
    c'.name = c.name ∧
    c'.due_date = none ∧
    c'.created_at = c.created_at ∧
    read_campaign (storeUpdate cid { name := none, due_date := some none } data) cid =
      .ok c' := by
  have hrun : update_campaign data cid
      { name := none, due_date := some none,
        campaign_id := rawId, created_at := rawCA } =
      (.ok (applyUpdate c { name := none, due_date := some none }),
        storeUpdate cid { name := none, due_date := some none } data) := by
    simp [update_campaign, h0, parseUpdate, hf]
  refine ⟨by rw [hrun]; simp, applyUpdate c { name := none, due_date := some none },
    hrun, rfl, rfl, rfl, ?_⟩
  rw [read_campaign, if_neg h0, storeUpdate_find?, hf]
  rfl

/-- Witness for C10 at a concrete input. -/
theorem update_due_date_null_counts_as_supplied_witness :
    (update_campaign [Campaign.mk 1 (some "Old") (some "d") "t0"] 1
        { name := none, due_date := some none,
          campaign_id := none, created_at := none }).fst ≠
      Except.error ApiError.emptyUpdate ∧
    ∃ c', update_campaign [Campaign.mk 1 (some "Old") (some "d") "t0"] 1
        { name := none, due_date := some none,
          campaign_id := none, created_at := none } =
      (.ok c', storeUpdate 1 { name := none, due_date := some none }
        [Campaign.mk 1 (some "Old") (some "d") "t0"]) ∧
    c'.name = (Campaign.mk 1 (some "Old") (some "d") "t0").name ∧
    c'.due_date = none ∧
    c'.created_at = (Campaign.mk 1 (some "Old") (some "d") "t0").created_at ∧
    read_campaign (storeUpdate 1 { name := none, due_date := some none }
        [Campaign.mk 1 (some "Old") (some "d") "t0"]) 1 = .ok c' :=
  update_due_date_null_counts_as_supplied [Campaign.mk 1 (some "Old") (some "d") "t0"] 1
    (Campaign.mk 1 (some "Old") (some "d") "t0") none none (by decide) rfl

end Omnicopy
